import Mathlib

/-
Verification development for the beagle code-execution core.

The definitions below are shallow embeddings of the Python sources under
backend/: the sandbox runtime agent (backend/sandbox/execution_server.py),
the result serializers (execution_server.safe_serialize and the teardown of
app/services/code_wrapper.py), the validators and executors
(app/services/code_executor.py, process_executor.py, docker_executor.py,
stateful_docker_executor.py) and the /execute API route
(app/api/execute.py).  User-submitted Python programs are modelled as
sequences of primitive statements (bind a value, raise, print); everything
the host and agent do around the dynamic `exec` call is translated
faithfully from the source.
-/

namespace Beagle

/-- JSON-representable Python scalar values (int, str, bool, None).  Python
floats are collapsed into the int case for the purposes of this model; none
of the verified properties depends on float arithmetic. -/
inductive PyScalar where
  | int (n : Int)
  | str (s : String)
  | bool (b : Bool)
  | null
  deriving Repr, DecidableEq

/-- Runtime values that can be bound in an execution environment.  Each
constructor corresponds to one of the isinstance branches inspected by the
serializers and the plotly / matplotlib capability probes:
`pylist` is a plain Python list of scalars (always json-serializable),
`dataframe` a pandas DataFrame (columns plus row data),
`series` a pandas Series, `ndarray` a dense numpy array with its flat
element buffer, `npNumber` a numpy integer/floating scalar,
`plotlyFig` a plotly figure whose `to_json()` either succeeds with the
given payload or raises (`none`), `mplFigure` a matplotlib Figure object
whose rendered PNG (base64) is carried for the capture hook, and
`modObj` / `funcObj` module and function objects. -/
inductive PyVal where
  | scalar (s : PyScalar)
  | pylist (xs : List PyScalar)
  | dataframe (cols : List String) (rows : List (List PyScalar))
  | series (entries : List PyScalar)
  | ndarray (shape : List Nat) (flat : List Int)
  | npNumber (n : Int)
  | plotlyFig (toJsonResult : Option String)
  | mplFigure (png : String)
  | modObj (nm : String)
  | funcObj (nm : String)
  | otherObj (reprS : String)
  deriving Repr, DecidableEq

/-- True when the second character list is a prefix of the first. -/
def charsStartWith : List Char → List Char → Bool
  | _, [] => true
  | [], _ :: _ => false
  | c :: cs, p :: ps => c = p && charsStartWith cs ps

/-- True when the second character list occurs inside the first. -/
def charsContain : List Char → List Char → Bool
  | [], p => charsStartWith [] p
  | c :: cs, p => charsStartWith (c :: cs) p || charsContain cs p

/-- True when `pat` occurs as a substring of `hay` (the Python `in`
operator on strings). -/
def strContains (hay pat : String) : Bool :=
  charsContain hay.data pat.data

/-- The Python `str.startswith` check. -/
def strStartsWith (s pre : String) : Bool :=
  charsStartWith s.data pre.data

/-- The Python `str.upper()` conversion. -/
def strToUpper (s : String) : String :=
  String.mk (s.data.map Char.toUpper)

/-- Result of `str(obj)` for the fallback branch of the serializers. -/
def pyStr : PyVal → String
  | .scalar (.int n) => toString n
  | .scalar (.str s) => s
  | .scalar (.bool b) => if b then "True" else "False"
  | .scalar .null => "None"
  | .pylist _ => "<list>"
  | .dataframe _ _ => "<DataFrame>"
  | .series _ => "<Series>"
  | .ndarray _ _ => "<ndarray>"
  | .npNumber n => toString n
  | .plotlyFig _ => "Figure(...)"
  | .mplFigure _ => "Figure(640x480)"
  | .modObj nm => "<module " ++ nm ++ ">"
  | .funcObj nm => "<function " ++ nm ++ ">"
  | .otherObj r => r

/-- Serialized form of a variable, as produced by `safe_serialize`:
`passthrough` is the object returned unchanged (json.dumps succeeded),
`item` the result of `.item()` on a numpy scalar, `table` the DataFrame
metadata dict, `seriesVal` the Series metadata dict, `arrayVal` the ndarray
metadata dict, and `opaqueVal` the `str(obj)` fallback. -/
inductive SerializedValue where
  | passthrough (v : PyVal)
  | item (n : Int)
  | table (shape : Nat × Nat) (columns : List String) (preview : List (List PyScalar))
  | seriesVal (length : Nat) (preview : List PyScalar)
  | arrayVal (shape : List Nat) (preview : List Int)
  | opaqueVal (s : String)
  deriving Repr, DecidableEq

/-- A captured visualization entry: a base64 PNG image dict
(type=image, format, content) or a plotly spec dict (type=plotly, content). -/
inductive Visualization where
  | image (format : String) (content : String)
  | plotly (content : String)
  deriving Repr, DecidableEq

/-- Embedding of `safe_serialize` from backend/sandbox/execution_server.py
(lines 76-108).  DataFrames become a table dict with shape
(len(df), len(df.columns)), the column list and `head(10)` as preview;
Series become length plus `head(10)`; ndarrays become shape plus
`flatten()[:20]`; json-basic values pass through (lists here contain only
scalars, so `json.dumps` always succeeds); numpy scalars go through
`.item()`; everything else falls back to `str(obj)`. -/
def safe_serialize : PyVal → SerializedValue
  | .dataframe cols rows => .table (rows.length, cols.length) cols (rows.take 10)
  | .series entries => .seriesVal entries.length (entries.take 10)
  | .ndarray shape flat => .arrayVal shape (flat.take 20)
  | .scalar s => .passthrough (.scalar s)
  | .pylist xs => .passthrough (.pylist xs)
  | .npNumber n => .item n
  | v => .opaqueVal (pyStr v)

/-- Embedding of the `safe_serialize` copy in the one-shot wrapper
(app/services/code_wrapper.py, teardown, lines 94-125).  It is identical to
the agent version except that its isinstance tuple omits `type(None)`, so
`None` falls through to the `str(obj)` fallback. -/
def wrapper_safe_serialize : PyVal → SerializedValue
  | .dataframe cols rows => .table (rows.length, cols.length) cols (rows.take 10)
  | .series entries => .seriesVal entries.length (entries.take 10)
  | .ndarray shape flat => .arrayVal shape (flat.take 20)
  | .scalar (.null) => .opaqueVal (pyStr (.scalar .null))
  | .scalar s => .passthrough (.scalar s)
  | .pylist xs => .passthrough (.pylist xs)
  | .npNumber n => .item n
  | v => .opaqueVal (pyStr v)

/-- True for module objects (`isinstance(val, types.ModuleType)`). -/
def isModule : PyVal → Bool
  | .modObj _ => true
  | _ => false

/-- True for function objects (`isinstance(val, types.FunctionType)`). -/
def isFunction : PyVal → Bool
  | .funcObj _ => true
  | _ => false

/-- Capability probe used by both serialization loops:
`hasattr(val, 'to_json') and (isinstance(val, go.Figure) or
'plotly.graph_objs' in str(type(val)))`.  In this model only plotly
figures satisfy it. -/
def plotlyProbe : PyVal → Bool
  | .plotlyFig _ => true
  | _ => false

/-- Result of calling `val.to_json()` on a value passing the probe; `none`
models the call raising (caught by the bare `except`). -/
def plotlyToJson : PyVal → Option String
  | .plotlyFig j => j
  | _ => none

/-- Names skipped by the agent serialization loop
(execution_server.py line 157). -/
def server_excluded : List String :=
  ["safe_serialize", "visualizations", "_capture_plt_show", "EXECUTION_GLOBALS"]

/-- Embedding of the variable-serialization loop of the agent
(execution_server.py lines 154-176), processing the environment entries in
insertion order.  An entry is skipped when its name starts with an
underscore, its value is a module or a function, or its name is in the
exclusion list; a value passing the plotly probe whose `to_json()` succeeds
is appended to the visualizations and omitted from the variables; every
other entry is serialized through `safe_serialize` (which never raises in
this model, so the surrounding try/except is inert). -/
def serializeGlobalsAux : List (String × PyVal) →
    List (String × SerializedValue) × List Visualization
  | [] => ([], [])
  | (name, val) :: rest =>
    let acc := serializeGlobalsAux rest
    if strStartsWith name "_" || isModule val || isFunction val then acc
    else if server_excluded.contains name then acc
    else if plotlyProbe val then
      match plotlyToJson val with
      | some j => (acc.1, .plotly j :: acc.2)
      | none => ((name, safe_serialize val) :: acc.1, acc.2)
    else ((name, safe_serialize val) :: acc.1, acc.2)

/-- Names skipped by the one-shot wrapper collection loop
(code_wrapper.py line 135). -/
def wrapper_excluded : List String :=
  ["sys", "json", "os", "io", "base64", "pd", "np", "scipy", "sklearn", "sm",
   "plt", "sns", "px", "go", "pio", "safe_serialize", "variables",
   "visualizations", "_capture_plt_show", "_original_plt_show"]

/-- Embedding of the variable-collection loop of the one-shot wrapper
(code_wrapper.py lines 131-151).  Unlike the agent loop it has no
`types.FunctionType` test: only underscore names, listed names and module
objects are skipped, so function objects reach `safe_serialize` and are
emitted as opaque strings. -/
def wrapperCollect : List (String × PyVal) →
    List (String × SerializedValue) × List Visualization
  | [] => ([], [])
  | (name, val) :: rest =>
    let acc := wrapperCollect rest
    if strStartsWith name "_" || wrapper_excluded.contains name then acc
    else if isModule val then acc
    else if plotlyProbe val then
      match plotlyToJson val with
      | some j => (acc.1, .plotly j :: acc.2)
      | none => ((name, wrapper_safe_serialize val) :: acc.1, acc.2)
    else ((name, wrapper_safe_serialize val) :: acc.1, acc.2)

/-- Python dict assignment on the environment: re-binding an existing key
overwrites it in place (insertion order is preserved); a new key is
appended at the end. -/
def envSet : List (String × PyVal) → String → PyVal → List (String × PyVal)
  | [], n, v => [(n, v)]
  | (k, w) :: rest, n, v =>
    if k = n then (n, v) :: rest else (k, w) :: envSet rest n v

/-- Lookup of a name in the environment (Python dict access). -/
def envGet : List (String × PyVal) → String → Option PyVal
  | [], _ => none
  | (k, w) :: rest, n => if k = n then some w else envGet rest n

/-- User-submitted programs are modelled as sequences of primitive
statements: bind a name to a value (a matplotlib-figure value also
registers an open figure with the drawing backend, as `plt.figure()`
does), print a line to stdout, or raise an exception. -/
inductive Stmt where
  | assign (name : String) (v : PyVal)
  | printOut (s : String)
  | raiseExn (msg : String)
  deriving Repr, DecidableEq

/-- Text written to the captured stderr by `traceback.print_exc()` when the
executed code raises with the given message. -/
def tracebackOf (msg : String) : String :=
  "Traceback (most recent call last):\n" ++ msg ++ "\n"

/-- Intermediate state of one `exec` call: the (mutated-in-place) global
environment, the drawing backend's open-figure registry, and the capture
buffers for stdout and stderr. -/
structure ExecState where
  env : List (String × PyVal)
  figs : List String
  out : String
  err : String
  deriving Repr, DecidableEq

/-- Semantics of `exec(code, EXECUTION_GLOBALS)`: statements run in order,
mutating the globals dict as they go; a raised exception stops execution,
leaves all bindings made so far in place, and is printed as a traceback to
the captured stderr (execution_server.py lines 140-146).  Returns the
final state and the success flag. -/
def runStmts : ExecState → List Stmt → ExecState × Bool
  | st, [] => (st, true)
  | st, .assign n v :: rest =>
    let figs := match v with
      | .mplFigure png => st.figs ++ [png]
      | _ => st.figs
    runStmts { st with env := envSet st.env n v, figs := figs } rest
  | st, .printOut s :: rest => runStmts { st with out := st.out ++ s ++ "\n" } rest
  | st, .raiseExn msg :: _ => ({ st with err := st.err ++ tracebackOf msg }, false)

/-- State of the in-sandbox agent process: the persistent
`EXECUTION_GLOBALS` dict and the matplotlib open-figure registry. -/
structure AgentState where
  globalsEnv : List (String × PyVal)
  openFigures : List String
  deriving Repr, DecidableEq

/-- Initial content of `EXECUTION_GLOBALS` when the agent process starts
(execution_server.py lines 36-53): the pre-imported library modules. -/
def initialGlobals : List (String × PyVal) :=
  [("pd", .modObj "pandas"), ("np", .modObj "numpy"),
   ("scipy", .modObj "scipy"), ("sklearn", .modObj "sklearn"),
   ("sm", .modObj "statsmodels.api"), ("plt", .modObj "matplotlib.pyplot"),
   ("sns", .modObj "seaborn"), ("px", .modObj "plotly.express"),
   ("go", .modObj "plotly.graph_objects"), ("pio", .modObj "plotly.io"),
   ("os", .modObj "os"), ("sys", .modObj "sys"), ("json", .modObj "json")]

/-- Agent state of a freshly started sandbox process. -/
def initialAgentState : AgentState := ⟨initialGlobals, []⟩

/-- Embedding of `_capture_plt_show` (execution_server.py lines 58-71):
every open figure is rendered to base64 PNG, appended to the
visualizations as an image entry, and closed. -/
def capture_plt_show (figs : List String) : List Visualization :=
  figs.map (fun png => .image "png" png)

/-- JSON body returned by the agent's POST /execute route. -/
structure AgentResponse where
  success : Bool
  stdout : String
  stderr : String
  variablesMap : List (String × SerializedValue)
  visualizations : List Visualization
  deriving Repr, DecidableEq

/-- Embedding of the agent's `execute_code` route
(execution_server.py lines 110-184).  The visualization list is reset, the
optional dataset is (re)loaded into the binding `df`, the code is executed
by `exec` against the persistent globals (success false and a traceback on
stderr when it raises), remaining open figures are drained through the
capture hook and closed, and the globals are serialized through the loop
embedded as `serializeGlobalsAux`.  Returns the HTTP response and the
agent state seen by the next request. -/
def agent_execute (st : AgentState) (stmts : List Stmt)
    (data : Option (List String × List (List PyScalar))) :
    AgentResponse × AgentState :=
  let env0 := match data with
    | some (cols, rows) => envSet st.globalsEnv "df" (.dataframe cols rows)
    | none => st.globalsEnv
  let r := runStmts ⟨env0, st.openFigures, "", ""⟩ stmts
  let vizImages := capture_plt_show r.1.figs
  let serialized := serializeGlobalsAux r.1.env
  (⟨r.2, r.1.out, r.1.err, serialized.1, vizImages ++ serialized.2⟩,
   ⟨r.1.env, []⟩)

/-- Host-side view of one session: the sandbox container for the session
id, if any, carrying the agent process state
(StatefulDockerExecutor._get_session_container). -/
structure SessionState where
  container : Option AgentState
  deriving Repr, DecidableEq

/-- Result dict returned by the host-side executors
(the keys of the dicts built in process_executor.py, docker_executor.py
and stateful_docker_executor.py; absent keys are `none`). -/
structure ExecDict where
  success : Bool
  error : Option String
  stdout : Option String
  stderr : Option String
  result : Option (List (String × SerializedValue))
  execution_time_ms : Option Nat
  visualizations : Option (List Visualization)
  deriving Repr, DecidableEq

/-- Embedding of `StatefulDockerExecutor.execute`
(stateful_docker_executor.py lines 50-176) for a session.  `clientOk`
states whether the docker client was initialized at construction;
`timesOut` is the oracle for whether the HTTP post to the agent exceeds
the request timeout.  On timeout the container is restarted
(`container.restart()`), which reboots the agent process and therefore
resets `EXECUTION_GLOBALS` to `initialGlobals`; the call reports a
timed-out, failed execution.  Otherwise the agent response is normalized
into the result dict.  `elapsed` is the measured wall-clock duration in
milliseconds for the normal path. -/
def stateful_execute (clientOk : Bool) (s : SessionState) (stmts : List Stmt)
    (data : Option (List String × List (List PyScalar)))
    (timeout : Nat) (timesOut : Bool) (elapsed : Nat) :
    ExecDict × SessionState :=
  if !clientOk then
    (⟨false, some "Docker client not initialized. Is Docker running?",
      none, none, none, some 0, none⟩, s)
  else
    let agent := s.container.getD initialAgentState
    if timesOut then
      (⟨false, some ("Execution timed out after " ++ toString timeout ++ " seconds"),
        some "", some "TimeoutExpired", none, some (timeout * 1000), none⟩,
       ⟨some initialAgentState⟩)
    else
      let r := agent_execute agent stmts data
      (⟨r.1.success,
        if r.1.success then none else some r.1.stderr,
        some r.1.stdout, some r.1.stderr,
        some r.1.variablesMap, some elapsed, some r.1.visualizations⟩,
       ⟨some r.2⟩)

/-- Data of a Python `SyntaxError` raised by `ast.parse`. -/
structure SynErr where
  line : Nat
  col : Nat
  msg : String
  deriving Repr, DecidableEq

/-- Result of `str(e)` for a `SyntaxError` from `ast.parse(code)` (the
default filename of `ast.parse` is the literal text between angle brackets
reading unknown): the message followed by the filename and line. -/
def strOfSynErr (e : SynErr) : String :=
  e.msg ++ " (<unknown>, line " ++ toString e.line ++ ")"

/-- Projection of the nodes yielded by `ast.walk` that the validator
inspects: plain imports (with the full dotted names of their aliases),
from-imports, calls of a named function, calls of an attribute, and
anything else. -/
inductive PyNode where
  | importStmt (names : List String)
  | importFrom (mod : Option String)
  | callName (id : String)
  | callAttr (attr : String)
  | otherNode
  deriving Repr, DecidableEq

/-- A submitted code string together with the outcome of parsing it with
the host language parser (`ast.parse`): either a syntax error or the walk
sequence of its syntax tree.  The parser is an external component; each
concrete `PyCode` used below records what CPython actually produces for
its text. -/
structure PyCode where
  text : String
  parsed : Except SynErr (List PyNode)

/-- The allow-list `CodeExecutor.ALLOWED_IMPORTS`
(code_executor.py lines 25-43). -/
def ALLOWED_IMPORTS : List String :=
  ["pandas", "pd", "numpy", "np", "scipy", "stats", "sklearn",
   "scikit-learn", "statsmodels", "matplotlib", "plt", "seaborn", "sns",
   "plotly", "px", "go", "datetime", "timedelta", "math", "statistics",
   "collections", "Counter", "defaultdict", "itertools", "functools",
   "json", "re", "typing"]

/-- The deny-list `CodeExecutor.BLOCKED_PATTERNS`
(code_executor.py lines 46-57). -/
def BLOCKED_PATTERNS : List String :=
  ["eval", "exec", "compile", "__import__", "open", "file", "input",
   "os", "subprocess", "sys", "socket", "urllib", "requests", "http",
   "__builtins__", "__loader__", "__spec__", "globals", "locals", "vars",
   "dir", "getattr", "setattr", "delattr", "hasattr", "breakpoint",
   "exit", "quit", "pickle", "shelve", "marshal", "ctypes", "cffi"]

/-- Characters of a name up to its first dot. -/
def takeUntilDot : List Char → List Char
  | [] => []
  | c :: cs => if c = '.' then [] else c :: takeUntilDot cs

/-- Top-level module of a dotted import name: the segment before the first
dot (index 0 of the split on dots). -/
def topModule (nm : String) : String :=
  String.mk (takeUntilDot nm.data)

/-- Structured reasons for which `CodeExecutor.validate_code` rejects. -/
inductive ValidationError where
  | syntaxErr (e : SynErr)
  | blockedPattern (p : String)
  | importNotAllowed (m : String)
  | callNotAllowed (f : String)
  | methodNotAllowed (a : String)
  deriving Repr, DecidableEq

/-- Check of a single walked node (code_executor.py lines 81-102): a
plain import rejects the first alias whose top-level module is not
allowed; a from-import rejects a disallowed source module; a call of a
blocked name or attribute rejects. -/
def checkNode : PyNode → Option ValidationError
  | .importStmt names =>
    (names.find? (fun nm => !ALLOWED_IMPORTS.contains (topModule nm))).map
      (fun nm => .importNotAllowed nm)
  | .importFrom (some m) =>
    if ALLOWED_IMPORTS.contains (topModule m) then none
    else some (.importNotAllowed m)
  | .importFrom none => none
  | .callName fid =>
    if BLOCKED_PATTERNS.contains fid then some (.callNotAllowed fid) else none
  | .callAttr a =>
    if BLOCKED_PATTERNS.contains a then some (.methodNotAllowed a) else none
  | .otherNode => none

/-- Embedding of `CodeExecutor.validate_code` (code_executor.py lines
62-104) as its structured outcome: parse the code (a failure is reported
as a syntax error), then scan the raw text for blocked substrings, then
walk the tree checking imports and calls. -/
def codeExecutor_validate (c : PyCode) : Option ValidationError :=
  match c.parsed with
  | .error e => some (.syntaxErr e)
  | .ok nodes =>
    match BLOCKED_PATTERNS.find? (fun p => strContains c.text p) with
    | some p => some (.blockedPattern p)
    | none => nodes.findSome? checkNode

/-- Error message produced for each rejection, exactly as formatted by the
source. -/
def renderValidationError : ValidationError → String
  | .syntaxErr e => "Syntax error: " ++ strOfSynErr e
  | .blockedPattern p => "Blocked pattern detected: " ++ p
  | .importNotAllowed m => "Import not allowed: " ++ m
  | .callNotAllowed f => "Function not allowed: " ++ f
  | .methodNotAllowed a => "Method not allowed: " ++ a

/-- The pair returned by `CodeExecutor.validate_code`. -/
def codeExecutor_validate_code (c : PyCode) : Bool × Option String :=
  match codeExecutor_validate c with
  | some e => (false, some (renderValidationError e))
  | none => (true, none)

/-- Substring deny-list validator shared in shape by
`ProcessExecutor.validate_code` and `DockerExecutor.validate_code`. -/
def validate_by_terms (terms : List String) (code : String) :
    Bool × Option String :=
  match terms.find? (fun t => strContains code t) with
  | some t => (false, some ("Blocked term detected: " ++ t))
  | none => (true, none)

/-- Embedding of `ProcessExecutor.validate_code`
(process_executor.py lines 35-51): a plain substring check. -/
def processExecutor_validate_code (code : String) : Bool × Option String :=
  validate_by_terms ["os.system", "subprocess.", "shutil.", "sys.exit"] code

/-- Embedding of `DockerExecutor.validate_code`
(docker_executor.py lines 37-48): a plain substring check. -/
def dockerExecutor_validate_code (code : String) : Bool × Option String :=
  validate_by_terms ["os.system", "subprocess."] code

/-- Embedding of `InputSanitizer.sanitize_code`
(core/sanitizer.py lines 200-222): truncate to 100000 characters and drop
null bytes. -/
def sanitize_code (code : String) : String :=
  if code = "" then ""
  else String.mk ((code.toList.take 100000).filter (fun ch => ch ≠ Char.ofNat 0))

/-- The module-level executor selected by app/api/execute.py lines 29-41. -/
inductive SelectedExecutor where
  | dockerE
  | processE
  deriving Repr, DecidableEq

/-- Embedding of the startup executor selection (execute.py lines 29-41):
in DOCKER mode the Docker daemon is pinged, and on any failure the route
falls back to `ProcessExecutor` with only a logged warning; in any other
mode `ProcessExecutor` is used directly. -/
def select_executor (mode : String) (dockerPingOk : Bool) : SelectedExecutor :=
  if strToUpper mode = "DOCKER" then
    if dockerPingOk then .dockerE else .processE
  else .processE

/-- `validate_code` of the selected executor, as called by the route. -/
def executor_validate : SelectedExecutor → String → Bool × Option String
  | .dockerE => dockerExecutor_validate_code
  | .processE => processExecutor_validate_code

/-- Observable sandbox-relevant actions of an executor's `execute` call:
running a script containing the user code in a subprocess of the host
interpreter (`subprocess.run([sys.executable, script_file])`), or creating
and starting a container from the sandbox image
(`client.containers.run(image=...)`). -/
inductive ExecEffect where
  | hostSubprocessRun (userCode : String)
  | containerRun (image : String) (userCode : String)
  deriving Repr, DecidableEq

/-- Outcome of the sandboxed child (container or subprocess) once
launched: it finishes with an exit code, captured output and an optional
result.json payload, or it outlives the timeout. -/
inductive SandboxOutcome where
  | completes (exitCode : Nat) (out err : String)
      (resultFile : Option (List (String × SerializedValue) × Option (List Visualization)))
  | hangsPastTimeout
  deriving Repr, DecidableEq

/-- Embedding of `ProcessExecutor.execute` (process_executor.py lines
53-165).  `hostOk` is an oracle for the host-side filesystem steps before
the launch (mkdtemp, writing data and script); when one of them raises,
the exception propagates to the caller and nothing is run.  Otherwise the
user code is run in a subprocess of the host interpreter; a timeout is
caught internally and returned as a failed dict, as are nonzero exits;
`elapsed` is the measured wall-clock duration in milliseconds.  Returns
the produced effects and either the result dict or a propagated
exception. -/
def processExecutor_execute (code : String) (hostOk : Bool)
    (outcome : SandboxOutcome) (timeout elapsed : Nat) :
    List ExecEffect × Except String ExecDict :=
  if !hostOk then ([], .error "host filesystem failure before launch")
  else
    ([.hostSubprocessRun code],
     match outcome with
     | .hangsPastTimeout =>
       .ok ⟨false, some ("Execution timed out after " ++ toString timeout ++ " seconds"),
            some "", some "TimeoutExpired", none, some (timeout * 1000), none⟩
     | .completes exitCode out err resultFile =>
       if exitCode ≠ 0 then
         .ok ⟨false, some err, some out, some err, none, some elapsed, none⟩
       else
         match resultFile with
         | some (vars, viz) =>
           .ok ⟨true, none, some out, some err, some vars, some elapsed, viz⟩
         | none =>
           .ok ⟨true, none, some out, some err, some [], some elapsed, none⟩)

/-- Embedding of `DockerExecutor.execute` (docker_executor.py lines
50-214).  When the docker client was never initialized (`clientOk` false)
the call returns a failed dict immediately, without creating a container
or running any user code.  Otherwise the wrapped user code runs in a fresh
container; timeouts kill the container and are returned as a failed dict
(the internal TimeoutError is caught at line 173 and never propagates). -/
def dockerExecutor_execute (clientOk : Bool) (code : String) (hostOk : Bool)
    (outcome : SandboxOutcome) (timeout elapsed : Nat) :
    List ExecEffect × Except String ExecDict :=
  if !clientOk then
    ([], .ok ⟨false, some "Docker client not initialized. Is Docker running?",
              none, none, none, some 0, none⟩)
  else if !hostOk then ([], .error "host filesystem failure before launch")
  else
    ([.containerRun "beagle-sandbox" code],
     match outcome with
     | .hangsPastTimeout =>
       .ok ⟨false, some ("Execution timed out after " ++ toString timeout ++ " seconds"),
            some "", some "TimeoutExpired", none, some (timeout * 1000), none⟩
     | .completes exitCode out err resultFile =>
       if exitCode ≠ 0 then
         .ok ⟨false, some (if err = "" then "Unknown error" else err),
              some out, some err, none, some elapsed, none⟩
       else
         match resultFile with
         | some (vars, viz) =>
           .ok ⟨true, none, some out, some err, some vars, some elapsed, viz⟩
         | none =>
           .ok ⟨true, none, some out, some err, some [], some elapsed, none⟩)

/-- What `await code_executor.execute(...)` does from the route's point of
view: return a result dict (with the effects its run produced), raise
`TimeoutError`, or raise some other exception. -/
inductive ExecBehavior where
  | returnsDict (d : ExecDict) (effects : List ExecEffect)
  | raisesTimeout (effects : List ExecEffect)
  | raisesOther (msg : String) (effects : List ExecEffect)
  deriving Repr, DecidableEq

/-- The persisted `executions` row as finalized by the route (the fields
of `app.models.file.Execution` that the route writes). -/
structure ExecutionRecordRow where
  code : String
  status : String
  result : Option (List (String × SerializedValue))
  stdout : Option String
  stderr : Option String
  visualizations : Option (List Visualization)
  execution_time_ms : Option Nat
  deriving Repr, DecidableEq

/-- Observable outcome of the POST / route: an HTTPException with a status
code and detail, or a normal response mirroring the record. -/
inductive ApiOutcome where
  | httpError (statusCode : Nat) (detail : String)
  | ok (resp : ExecutionRecordRow)
  deriving Repr, DecidableEq

/-- Everything observable about one call of the route: its response, the
Execution row persisted for it (none when the route raised before creating
one), and the sandbox-relevant effects that occurred. -/
structure EndpointResult where
  outcome : ApiOutcome
  record : Option ExecutionRecordRow
  effects : List ExecEffect
  deriving Repr, DecidableEq

/-- Embedding of the POST / route `execute_code` (app/api/execute.py lines
44-151).  The code is sanitized and validated by the selected executor's
`validate_code`; a validation failure raises HTTPException 400 before the
Execution row is created and before the executor is invoked.  A missing
requested file raises 404 likewise.  Otherwise the row is created (status
running) and the executor call finalizes it: a returned dict sets status
success or failed together with its stdout, stderr, result,
visualizations and execution_time_ms; a raised TimeoutError sets status
timeout and a timeout message as stderr, leaving the other fields at
their defaults; any other exception sets status failed with the exception
text as stderr. -/
def execute_endpoint (ex : SelectedExecutor) (code : String)
    (fileRequested fileFound : Bool) (timeoutS : Nat)
    (behavior : ExecBehavior) : EndpointResult :=
  let c := sanitize_code code
  match executor_validate ex c with
  | (false, em) =>
    ⟨.httpError 400 ("Code validation failed: " ++ em.getD "None"), none, []⟩
  | (true, _) =>
    if fileRequested && !fileFound then
      ⟨.httpError 404 "File not found", none, []⟩
    else
      match behavior with
      | .returnsDict d effs =>
        let row : ExecutionRecordRow :=
          ⟨c, if d.success then "success" else "failed",
           d.result, d.stdout, d.stderr, d.visualizations, d.execution_time_ms⟩
        ⟨.ok row, some row, effs⟩
      | .raisesTimeout effs =>
        let row : ExecutionRecordRow :=
          ⟨c, "timeout", none, none,
           some ("Execution timed out after " ++ toString timeoutS ++ " seconds"),
           none, none⟩
        ⟨.ok row, some row, effs⟩
      | .raisesOther msg effs =>
        let row : ExecutionRecordRow :=
          ⟨c, "failed", none, none, some msg, none, none⟩
        ⟨.ok row, some row, effs⟩

/-- The scenario input of the spec rendered as a string (single quotes
written with an escape): import os; os.system of the string ls. -/
def osSystemText : String := "import os; os.system(\x27ls\x27)"

/-- The code string importing the socket module. -/
def importSocketText : String := "import socket"

/-- The code `import socket` together with its actual CPython parse:
`ast.walk` yields the Module node, the Import node with a single alias of
name socket, and the alias node itself; only the Import node is relevant
to the validator, the other two project to `otherNode`. -/
def importSocketCode : PyCode :=
  ⟨importSocketText, .ok [.otherNode, .importStmt ["socket"], .otherNode]⟩

/-- A code string that does not parse (an unterminated function header),
together with the `SyntaxError` that `ast.parse` raises on it. -/
def badSyntaxCode : PyCode :=
  ⟨"def f(:", .error ⟨1, 7, "invalid syntax"⟩⟩

/-- Binding a name always leaves it bound to the assigned value in the
updated environment. -/
theorem envSet_mem_self (env : List (String × PyVal)) (n : String) (v : PyVal) :
    (n, v) ∈ envSet env n v := by
  induction env with
  | nil => simp [envSet]
  | cons kv rest ih =>
    obtain ⟨k, w⟩ := kv
    by_cases h : k = n <;> simp [envSet, h, ih]

/-- Looking up a name right after binding it returns the bound value. -/
theorem envGet_envSet_self (env : List (String × PyVal)) (n : String) (v : PyVal) :
    envGet (envSet env n v) n = some v := by
  induction env with
  | nil => simp [envSet, envGet]
  | cons kv rest ih =>
    obtain ⟨k, w⟩ := kv
    by_cases h : k = n <;> simp [envSet, envGet, h, ih]

/-- Every entry of the agent's serialized variables map originates from an
environment binding whose name does not start with an underscore and is
not excluded, whose value is neither a module nor a function, and which
did not take the successful-plotly branch; its serialized form is
`safe_serialize` of that value. -/
theorem serializeGlobalsAux_mem_source
    {env : List (String × PyVal)} {m : String} {sv : SerializedValue}
    (h : (m, sv) ∈ (serializeGlobalsAux env).1) :
    strStartsWith m "_" = false ∧ server_excluded.contains m = false ∧
    ∃ v, (m, v) ∈ env ∧ isModule v = false ∧ isFunction v = false ∧
      sv = safe_serialize v ∧ (plotlyProbe v = true → plotlyToJson v = none) := by
  induction env with
  | nil => simp [serializeGlobalsAux] at h
  | cons kv rest ih =>
    obtain ⟨name, val⟩ := kv
    by_cases h1 : (strStartsWith name "_" || isModule val || isFunction val) = true
    · simp only [serializeGlobalsAux, h1, if_true] at h
      obtain ⟨hu, he, v, hv, rest'⟩ := ih h
      exact ⟨hu, he, v, List.mem_cons_of_mem _ hv, rest'⟩
    · by_cases h2 : server_excluded.contains name = true
      · simp only [serializeGlobalsAux, Bool.eq_false_iff.mpr h1, h2,
          Bool.false_eq_true, if_false, if_true] at h
        obtain ⟨hu, he, v, hv, rest'⟩ := ih h
        exact ⟨hu, he, v, List.mem_cons_of_mem _ hv, rest'⟩
      · have h1' := Bool.eq_false_iff.mpr h1
        have h2' := Bool.eq_false_iff.mpr h2
        have h1'' := h1'
        simp only [Bool.or_eq_false_iff] at h1''
        by_cases h3 : plotlyProbe val = true
        · cases hj : plotlyToJson val with
          | some j =>
            simp only [serializeGlobalsAux, h1', h2', h3, hj, Bool.or_self,
              Bool.false_eq_true, if_false, if_true] at h
            obtain ⟨hu, he, v, hv, rest'⟩ := ih h
            exact ⟨hu, he, v, List.mem_cons_of_mem _ hv, rest'⟩
          | none =>
            simp only [serializeGlobalsAux, h1', h2', h3, hj, Bool.or_self,
              Bool.false_eq_true, if_false, if_true] at h
            rcases List.mem_cons.mp h with heq | htail
            · obtain ⟨hm, hsv⟩ := Prod.mk.injEq .. ▸ heq
              subst hm
              exact ⟨h1''.1.1, h2', val, List.mem_cons_self _ _, h1''.1.2, h1''.2,
                hsv ▸ rfl, fun _ => hj⟩
            · obtain ⟨hu, he, v, hv, rest'⟩ := ih htail
              exact ⟨hu, he, v, List.mem_cons_of_mem _ hv, rest'⟩
        · have h3' := Bool.eq_false_iff.mpr h3
          simp only [serializeGlobalsAux, h1', h2', h3', Bool.false_eq_true,
            if_false] at h
          rcases List.mem_cons.mp h with heq | htail
          · obtain ⟨hm, hsv⟩ := Prod.mk.injEq .. ▸ heq
            subst hm
            exact ⟨h1''.1.1, h2', val, List.mem_cons_self _ _, h1''.1.2, h1''.2,
              hsv ▸ rfl, fun hc => absurd hc h3⟩
          · obtain ⟨hu, he, v, hv, rest'⟩ := ih htail
            exact ⟨hu, he, v, List.mem_cons_of_mem _ hv, rest'⟩

/-- An environment binding whose name is not skipped, whose value is
neither a module nor a function, and which does not take the
successful-plotly branch, is serialized into the variables map. -/
theorem serializeGlobalsAux_mem_of
    {env : List (String × PyVal)} {m : String} {v : PyVal}
    (hmem : (m, v) ∈ env)
    (h1 : strStartsWith m "_" = false) (h2 : server_excluded.contains m = false)
    (h3 : isModule v = false) (h4 : isFunction v = false)
    (h5 : plotlyProbe v = false ∨ plotlyToJson v = none) :
    (m, safe_serialize v) ∈ (serializeGlobalsAux env).1 := by
  induction env with
  | nil => simp at hmem
  | cons kv rest ih =>
    obtain ⟨name, val⟩ := kv
    rcases List.mem_cons.mp hmem with heq | htail
    · obtain ⟨hm, hv⟩ := Prod.mk.injEq .. ▸ heq
      subst hm
      subst hv
      rcases h5 with hp | hj
      · simp only [serializeGlobalsAux, h1, h2, h3, h4, hp, Bool.or_self,
          Bool.false_eq_true, if_false]
        exact List.mem_cons_self _ _
      · cases hp : plotlyProbe v with
        | false =>
          simp only [serializeGlobalsAux, h1, h2, h3, h4, hp, Bool.or_self,
            Bool.false_eq_true, if_false]
          exact List.mem_cons_self _ _
        | true =>
          simp only [serializeGlobalsAux, h1, h2, h3, h4, hp, hj, Bool.or_self,
            Bool.false_eq_true, if_false, if_true]
          exact List.mem_cons_self _ _
    · have base := ih htail
      by_cases c1 : (strStartsWith name "_" || isModule val || isFunction val) = true
      · simpa only [serializeGlobalsAux, c1, if_true] using base
      · have c1' := Bool.eq_false_iff.mpr c1
        by_cases c2 : server_excluded.contains name = true
        · simpa only [serializeGlobalsAux, c1', c2, Bool.false_eq_true, if_false,
            if_true] using base
        · have c2' := Bool.eq_false_iff.mpr c2
          by_cases c3 : plotlyProbe val = true
          · cases hj : plotlyToJson val with
            | some j =>
              simp only [serializeGlobalsAux, c1', c2', c3, hj,
                Bool.false_eq_true, if_false, if_true]
              exact base
            | none =>
              simp only [serializeGlobalsAux, c1', c2', c3, hj,
                Bool.false_eq_true, if_false, if_true]
              exact List.mem_cons_of_mem _ base
          · have c3' := Bool.eq_false_iff.mpr c3
            simp only [serializeGlobalsAux, c1', c2', c3', Bool.false_eq_true,
              if_false]
            exact List.mem_cons_of_mem _ base

/-- A binding to a plotly figure whose `to_json()` succeeds contributes its
spec to the visualization list, provided its name is not skipped. -/
theorem serializeGlobalsAux_plotly_viz
    {env : List (String × PyVal)} {m : String} {j : String}
    (hmem : (m, PyVal.plotlyFig (some j)) ∈ env)
    (h1 : strStartsWith m "_" = false)
    (h2 : server_excluded.contains m = false) :
    Visualization.plotly j ∈ (serializeGlobalsAux env).2 := by
  induction env with
  | nil => simp at hmem
  | cons kv rest ih =>
    obtain ⟨name, val⟩ := kv
    rcases List.mem_cons.mp hmem with heq | htail
    · obtain ⟨hm, hv⟩ := Prod.mk.injEq .. ▸ heq
      subst hm
      subst hv
      simp only [serializeGlobalsAux, h1, h2, plotlyProbe, plotlyToJson,
        isModule, isFunction, Bool.or_self, Bool.false_eq_true, if_false,
        if_true]
      exact List.mem_cons_self _ _
    · have base := ih htail
      by_cases c1 : (strStartsWith name "_" || isModule val || isFunction val) = true
      · simpa only [serializeGlobalsAux, c1, if_true] using base
      · have c1' := Bool.eq_false_iff.mpr c1
        by_cases c2 : server_excluded.contains name = true
        · simpa only [serializeGlobalsAux, c1', c2, Bool.false_eq_true, if_false,
            if_true] using base
        · have c2' := Bool.eq_false_iff.mpr c2
          by_cases c3 : plotlyProbe val = true
          · cases hj : plotlyToJson val with
            | some j' =>
              simp only [serializeGlobalsAux, c1', c2', c3, hj,
                Bool.false_eq_true, if_false, if_true]
              exact List.mem_cons_of_mem _ base
            | none =>
              simp only [serializeGlobalsAux, c1', c2', c3, hj,
                Bool.false_eq_true, if_false, if_true]
              exact base
          · have c3' := Bool.eq_false_iff.mpr c3
            simp only [serializeGlobalsAux, c1', c2', c3', Bool.false_eq_true,
              if_false]
            exact base

/-- In an environment with pairwise distinct names (a Python dict), a name
determines its value. -/
theorem mem_unique_of_nodup_keys {α : Type} {env : List (String × α)}
    (hnd : (env.map Prod.fst).Nodup) {m : String} {v w : α}
    (h1 : (m, v) ∈ env) (h2 : (m, w) ∈ env) : v = w := by
  induction env with
  | nil => simp at h1
  | cons kv rest ih =>
    rw [List.map_cons, List.nodup_cons] at hnd
    rcases List.mem_cons.mp h1 with he1 | ht1 <;>
      rcases List.mem_cons.mp h2 with he2 | ht2
    · exact congrArg Prod.snd (he1.trans he2.symm)
    · have hk : kv.1 = m := by rw [← he1]
      exact absurd (List.mem_map_of_mem Prod.fst ht2) (hk ▸ hnd.1)
    · have hk : kv.1 = m := by rw [← he2]
      exact absurd (List.mem_map_of_mem Prod.fst ht1) (hk ▸ hnd.1)
    · exact ih hnd.2 ht1 ht2

/-- In a duplicate-free environment, a name bound to a plotly figure whose
`to_json()` succeeds never appears in the serialized variables map. -/
theorem serializeGlobalsAux_plotly_not_var
    {env : List (String × PyVal)} {m : String} {j : String}
    (hnd : (env.map Prod.fst).Nodup)
    (hmem : (m, PyVal.plotlyFig (some j)) ∈ env) :
    ∀ sv, (m, sv) ∉ (serializeGlobalsAux env).1 := by
  intro sv hc
  obtain ⟨_, _, v, hv, _, _, _, hpl⟩ := serializeGlobalsAux_mem_source hc
  have hvw := mem_unique_of_nodup_keys hnd hv hmem
  subst hvw
  exact Option.noConfusion (hpl rfl)

/-- Every entry of the one-shot wrapper variables map originates from an
environment binding whose name does not start with an underscore and is
not in the wrapper exclusion list, and whose value is not a module;
function objects are not excluded by this loop. -/
theorem wrapperCollect_mem_source
    {env : List (String × PyVal)} {m : String} {sv : SerializedValue}
    (h : (m, sv) ∈ (wrapperCollect env).1) :
    strStartsWith m "_" = false ∧ wrapper_excluded.contains m = false ∧
    ∃ v, (m, v) ∈ env ∧ isModule v = false := by
  induction env with
  | nil => simp [wrapperCollect] at h
  | cons kv rest ih =>
    obtain ⟨name, val⟩ := kv
    by_cases c1 : (strStartsWith name "_" || wrapper_excluded.contains name) = true
    · simp only [wrapperCollect, c1, if_true] at h
      obtain ⟨hu, he, v, hv, hm⟩ := ih h
      exact ⟨hu, he, v, List.mem_cons_of_mem _ hv, hm⟩
    · have c1' := Bool.eq_false_iff.mpr c1
      have c1'' := c1'
      simp only [Bool.or_eq_false_iff] at c1''
      by_cases c2 : isModule val = true
      · simp only [wrapperCollect, c1', c2, Bool.false_eq_true, if_false,
          if_true] at h
        obtain ⟨hu, he, v, hv, hm⟩ := ih h
        exact ⟨hu, he, v, List.mem_cons_of_mem _ hv, hm⟩
      · have c2' := Bool.eq_false_iff.mpr c2
        by_cases c3 : plotlyProbe val = true
        · cases hj : plotlyToJson val with
          | some j =>
            simp only [wrapperCollect, c1', c2', c3, hj, Bool.false_eq_true,
              if_false, if_true] at h
            obtain ⟨hu, he, v, hv, hm⟩ := ih h
            exact ⟨hu, he, v, List.mem_cons_of_mem _ hv, hm⟩
          | none =>
            simp only [wrapperCollect, c1', c2', c3, hj, Bool.false_eq_true,
              if_false, if_true] at h
            rcases List.mem_cons.mp h with heq | htail
            · obtain ⟨hm, hsv⟩ := Prod.mk.injEq .. ▸ heq
              subst hm
              exact ⟨c1''.1, c1''.2, val, List.mem_cons_self _ _, c2'⟩
            · obtain ⟨hu, he, v, hv, hm⟩ := ih htail
              exact ⟨hu, he, v, List.mem_cons_of_mem _ hv, hm⟩
        · have c3' := Bool.eq_false_iff.mpr c3
          simp only [wrapperCollect, c1', c2', c3', Bool.false_eq_true,
            if_false] at h
          rcases List.mem_cons.mp h with heq | htail
          · obtain ⟨hm, hsv⟩ := Prod.mk.injEq .. ▸ heq
            subst hm
            exact ⟨c1''.1, c1''.2, val, List.mem_cons_self _ _, c2'⟩
          · obtain ⟨hu, he, v, hv, hm⟩ := ih htail
            exact ⟨hu, he, v, List.mem_cons_of_mem _ hv, hm⟩

/-- C1 counterexample: with execution mode DOCKER and the Docker daemon
unreachable at startup, the route selects the ProcessExecutor, and a
subsequent execution runs the user code in a subprocess of the host
interpreter instead of failing with a sandbox-unavailable error — the
system degrades to a host evaluator, contrary to the claim. -/
theorem C1_counterexample :
    select_executor "DOCKER" false = SelectedExecutor.processE
    ∧ (processExecutor_execute "z = 10 + 20" true
        (.completes 0 "" "" none) 30 5).1 =
        [ExecEffect.hostSubprocessRun "z = 10 + 20"] :=
  ⟨by rfl, by rfl⟩

/-- C1, amended: when Docker is unavailable at startup in DOCKER mode the
route falls back to the ProcessExecutor, whose every execution runs the
user code in a subprocess of the host interpreter; only a DockerExecutor
whose client was never initialized fails each request with a
Docker-unavailable error dict, creating no container and running no user
code. -/
theorem C1_theorem (code : String) (outcome : SandboxOutcome) (t e : Nat) :
    select_executor "DOCKER" false = SelectedExecutor.processE
    ∧ (processExecutor_execute code true outcome t e).1 =
        [ExecEffect.hostSubprocessRun code]
    ∧ dockerExecutor_execute false code true outcome t e =
        ([], .ok ⟨false, some "Docker client not initialized. Is Docker running?",
                  none, none, none, some 0, none⟩) :=
  ⟨by rfl, by rfl, by rfl⟩

/-- C2 counterexample: a submission failing policy validation raises
HTTPException 400 before any Execution row is created, so no record is
persisted, no failed status transition happens, and stderr is never
populated — contrary to the claim. -/
theorem C2_counterexample :
    execute_endpoint .dockerE osSystemText false false 30
        (.returnsDict ⟨true, none, none, none, none, some 0, none⟩ []) =
      ⟨.httpError 400 "Code validation failed: Blocked term detected: os.system",
       none, []⟩ :=
  by rfl

/-- C2, amended: on policy validation failure the route raises
HTTPException 400 whose detail carries the violation reason; no
ExecutionRecord row is created (hence no failed status and no persisted
stderr) and the executor is never invoked. -/
theorem C2_theorem (ex : SelectedExecutor) (code : String)
    (fr ff : Bool) (t : Nat) (b : ExecBehavior) (em : String)
    (h : executor_validate ex (sanitize_code code) = (false, some em)) :
    execute_endpoint ex code fr ff t b =
      ⟨.httpError 400 ("Code validation failed: " ++ em), none, []⟩ := by
  simp only [execute_endpoint, h]
  rfl

/-- C2 witness at the os.system scenario input. -/
theorem C2_witness :
    executor_validate .dockerE (sanitize_code osSystemText) =
      (false, some "Blocked term detected: os.system")
    ∧ execute_endpoint .dockerE osSystemText true true 30 (.raisesOther "x" []) =
        ⟨.httpError 400 "Code validation failed: Blocked term detected: os.system",
         none, []⟩ :=
  ⟨by rfl, C2_theorem .dockerE osSystemText true true 30 (.raisesOther "x" [])
          "Blocked term detected: os.system" (by rfl)⟩

/-- C3: a submission rejected by the selected executor validator returns
HTTP 400 to the caller with no sandbox effects at all — no container is
created or started and no subprocess is run — and both executors'
validators reject the os.system scenario input with the blocked-term
reason. -/
theorem C3_theorem :
    (∀ (ex : SelectedExecutor) (code : String) (fr ff : Bool) (t : Nat)
       (b : ExecBehavior) (em : Option String),
       executor_validate ex (sanitize_code code) = (false, em) →
       (execute_endpoint ex code fr ff t b).effects = []
       ∧ ∃ d, (execute_endpoint ex code fr ff t b).outcome = .httpError 400 d)
    ∧ processExecutor_validate_code (sanitize_code osSystemText) =
        (false, some "Blocked term detected: os.system")
    ∧ dockerExecutor_validate_code (sanitize_code osSystemText) =
        (false, some "Blocked term detected: os.system") := by
  refine ⟨?_, by rfl, by rfl⟩
  intro ex code fr ff t b em h
  constructor
  · simp [execute_endpoint, h]
  · simp [execute_endpoint, h]

/-- C3 witness: even when the executor behavior would produce sandbox
effects, a rejected submission produces none. -/
theorem C3_witness :
    executor_validate .processE (sanitize_code osSystemText) =
      (false, some "Blocked term detected: os.system")
    ∧ ((execute_endpoint .processE osSystemText false false 30
          (.returnsDict ⟨true, none, none, none, none, some 0, none⟩
            [.containerRun "beagle-sandbox" osSystemText])).effects = []
       ∧ ∃ d, (execute_endpoint .processE osSystemText false false 30
          (.returnsDict ⟨true, none, none, none, none, some 0, none⟩
            [.containerRun "beagle-sandbox" osSystemText])).outcome =
            .httpError 400 d) :=
  ⟨by rfl, C3_theorem.1 .processE osSystemText false false 30
      (.returnsDict ⟨true, none, none, none, none, some 0, none⟩
        [.containerRun "beagle-sandbox" osSystemText])
      (some "Blocked term detected: os.system") (by rfl)⟩


/-- The boolean component of the validate_code pair is false exactly when
the structured validation produced an error. -/
theorem codeExecutor_validate_code_fst (c : PyCode) :
    (codeExecutor_validate_code c).1 = false ↔
      (codeExecutor_validate c).isSome = true := by
  unfold codeExecutor_validate_code
  cases codeExecutor_validate c <;> simp

/-- On successfully parsed code, validation is the blocked-pattern scan
followed by the tree walk. -/
theorem codeExecutor_validate_ok (c : PyCode) (nodes : List PyNode)
    (hok : c.parsed = .ok nodes) :
    codeExecutor_validate c =
      (match BLOCKED_PATTERNS.find? (fun p => strContains c.text p) with
       | some p => some (.blockedPattern p)
       | none => nodes.findSome? checkNode) := by
  unfold codeExecutor_validate
  rw [hok]

/-- C4 counterexample: the validate operation wired to the API (the
validate_code of ProcessExecutor and DockerExecutor, one of which is the
module-level code_executor) accepts code importing the disallowed socket
module and accepts code that does not parse; only the AST-based
CodeExecutor.validate_code, which the API never instantiates, rejects
them. -/
theorem C4_counterexample :
    processExecutor_validate_code importSocketText = (true, none)
    ∧ dockerExecutor_validate_code importSocketText = (true, none)
    ∧ ALLOWED_IMPORTS.contains (topModule "socket") = false
    ∧ processExecutor_validate_code "def f(:" = (true, none)
    ∧ dockerExecutor_validate_code "def f(:" = (true, none)
    ∧ (codeExecutor_validate_code importSocketCode).1 = false
    ∧ (codeExecutor_validate_code badSyntaxCode).1 = false := by
  exact ⟨by decide, by decide, by decide, by decide, by decide,
         by decide, by decide⟩

/-- C4, amended to the AST-based validator CodeExecutor.validate_code (the
validators actually used by the API are plain substring checks with
neither a parse step nor import analysis): a parse failure is rejected
with a syntax-error message carrying the location; an import whose
top-level module is outside ALLOWED_IMPORTS is rejected; code that parses
and whose imports are all allowed is rejected by neither of those two
checks (it may still hit the blocked-pattern or blocked-call rules). -/
theorem C4_theorem (c : PyCode) :
    (∀ e, c.parsed = .error e →
       codeExecutor_validate_code c =
         (false, some ("Syntax error: " ++ strOfSynErr e)))
    ∧ (∀ nodes names nm, c.parsed = .ok nodes →
         PyNode.importStmt names ∈ nodes → nm ∈ names →
         ALLOWED_IMPORTS.contains (topModule nm) = false →
         (codeExecutor_validate_code c).1 = false)
    ∧ (∀ nodes, c.parsed = .ok nodes →
         (∀ names nm, PyNode.importStmt names ∈ nodes → nm ∈ names →
            ALLOWED_IMPORTS.contains (topModule nm) = true) →
         (∀ m, PyNode.importFrom (some m) ∈ nodes →
            ALLOWED_IMPORTS.contains (topModule m) = true) →
         (∀ e, codeExecutor_validate c ≠ some (.syntaxErr e))
         ∧ (∀ m, codeExecutor_validate c ≠ some (.importNotAllowed m))) := by
  refine ⟨?_, ?_, ?_⟩
  · intro e he
    simp [codeExecutor_validate_code, codeExecutor_validate, he,
      renderValidationError]
  · intro nodes names nm hok hnode hnm hdis
    rw [codeExecutor_validate_code_fst, codeExecutor_validate_ok c nodes hok]
    cases hb : BLOCKED_PATTERNS.find? (fun p => strContains c.text p) with
    | some p => simp
    | none =>
      simp only [Option.isSome_iff_ne_none, ne_eq]
      intro hfs
      have hall := List.findSome?_eq_none_iff.mp hfs _ hnode
      have hfind : names.find?
          (fun nm => !ALLOWED_IMPORTS.contains (topModule nm)) = none := by
        cases hf : names.find?
            (fun nm => !ALLOWED_IMPORTS.contains (topModule nm)) with
        | none => rfl
        | some x =>
          rw [checkNode, hf] at hall
          exact Option.noConfusion hall
      have hnone := List.find?_eq_none.mp hfind nm hnm
      simp at hnone hdis
      exact hdis hnone
  · intro nodes hok himp hfrom
    rw [codeExecutor_validate_ok c nodes hok]
    cases hb : BLOCKED_PATTERNS.find? (fun p => strContains c.text p) with
    | some p =>
      constructor
      · intro e hc
        simp at hc
      · intro m hc
        simp at hc
    | none =>
      constructor
      · intro e hc
        obtain ⟨nd, hnd, hcn⟩ := List.exists_of_findSome?_eq_some hc
        cases nd with
        | importStmt names =>
          rw [checkNode] at hcn
          cases hf : names.find?
              (fun nm => !ALLOWED_IMPORTS.contains (topModule nm)) with
          | none =>
            rw [hf] at hcn
            exact Option.noConfusion hcn
          | some x =>
            rw [hf] at hcn
            exact ValidationError.noConfusion (Option.some.inj hcn)
        | importFrom mo =>
          cases mo with
          | none => exact Option.noConfusion hcn
          | some m2 =>
            rw [checkNode] at hcn
            by_cases hc2 : ALLOWED_IMPORTS.contains (topModule m2) = true
            · rw [if_pos hc2] at hcn
              exact Option.noConfusion hcn
            · rw [if_neg hc2] at hcn
              exact ValidationError.noConfusion (Option.some.inj hcn)
        | callName fid =>
          rw [checkNode] at hcn
          by_cases hc2 : BLOCKED_PATTERNS.contains fid = true
          · rw [if_pos hc2] at hcn
            exact ValidationError.noConfusion (Option.some.inj hcn)
          · rw [if_neg hc2] at hcn
            exact Option.noConfusion hcn
        | callAttr a =>
          rw [checkNode] at hcn
          by_cases hc2 : BLOCKED_PATTERNS.contains a = true
          · rw [if_pos hc2] at hcn
            exact ValidationError.noConfusion (Option.some.inj hcn)
          · rw [if_neg hc2] at hcn
            exact Option.noConfusion hcn
        | otherNode => exact Option.noConfusion hcn
      · intro m hc
        obtain ⟨nd, hnd, hcn⟩ := List.exists_of_findSome?_eq_some hc
        cases nd with
        | importStmt names =>
          rw [checkNode] at hcn
          cases hf : names.find?
              (fun nm => !ALLOWED_IMPORTS.contains (topModule nm)) with
          | none =>
            rw [hf] at hcn
            exact Option.noConfusion hcn
          | some x =>
            have hx := List.find?_some hf
            have hxm := List.mem_of_find?_eq_some hf
            have hok2 := himp names x hnd hxm
            simp at hx hok2
            exact hx hok2
        | importFrom mo =>
          cases mo with
          | none => exact Option.noConfusion hcn
          | some m2 =>
            rw [checkNode] at hcn
            by_cases hc2 : ALLOWED_IMPORTS.contains (topModule m2) = true
            · rw [if_pos hc2] at hcn
              exact Option.noConfusion hcn
            · exact absurd (hfrom m2 hnd) hc2
        | callName fid =>
          rw [checkNode] at hcn
          by_cases hc2 : BLOCKED_PATTERNS.contains fid = true
          · rw [if_pos hc2] at hcn
            exact ValidationError.noConfusion (Option.some.inj hcn)
          · rw [if_neg hc2] at hcn
            exact Option.noConfusion hcn
        | callAttr a =>
          rw [checkNode] at hcn
          by_cases hc2 : BLOCKED_PATTERNS.contains a = true
          · rw [if_pos hc2] at hcn
            exact ValidationError.noConfusion (Option.some.inj hcn)
          · rw [if_neg hc2] at hcn
            exact Option.noConfusion hcn
        | otherNode => exact Option.noConfusion hcn

/-- C4 witness: the AST validator rejects the unparseable sample with the
syntax-error message carrying its line. -/
theorem C4_witness :
    badSyntaxCode.parsed = Except.error ⟨1, 7, "invalid syntax"⟩
    ∧ codeExecutor_validate_code badSyntaxCode =
        (false, some "Syntax error: invalid syntax (<unknown>, line 1)") :=
  ⟨rfl, (C4_theorem badSyntaxCode).1 ⟨1, 7, "invalid syntax"⟩ rfl⟩

/-- C5 counterexample: after binding the name fig to a matplotlib figure,
the figure is captured into visualizations as a PNG image through the
open-figure registry, yet the binding also appears in the variables map,
serialized as an opaque string — contrary to the claim that figure-valued
variables never appear in variables. -/
theorem C5_counterexample :
    (agent_execute initialAgentState
        [.assign "fig" (.mplFigure "iVBORw0KG")] none).1.visualizations =
      [.image "png" "iVBORw0KG"]
    ∧ ("fig", SerializedValue.opaqueVal "Figure(640x480)") ∈
        (agent_execute initialAgentState
          [.assign "fig" (.mplFigure "iVBORw0KG")] none).1.variablesMap := by
  exact ⟨by decide, by decide⟩

/-- C5, amended: a variable bound to a vector (plotly) figure whose
to_json() succeeds is appended to visualizations and omitted from the
variables map (for a duplicate-free environment and a name that is
neither underscore-prefixed nor excluded); a variable bound to a raster
(matplotlib) figure is captured into visualizations only through the
open-figure registry, while the binding itself still appears in the
variables map as an opaque string. -/
theorem C5_theorem :
    (∀ (env : List (String × PyVal)) (m j : String),
       (env.map Prod.fst).Nodup →
       (m, PyVal.plotlyFig (some j)) ∈ env →
       strStartsWith m "_" = false →
       server_excluded.contains m = false →
       Visualization.plotly j ∈ (serializeGlobalsAux env).2
       ∧ ∀ sv, (m, sv) ∉ (serializeGlobalsAux env).1)
    ∧ (∀ (env : List (String × PyVal)) (m png : String),
       (m, PyVal.mplFigure png) ∈ env →
       strStartsWith m "_" = false →
       server_excluded.contains m = false →
       (m, SerializedValue.opaqueVal "Figure(640x480)") ∈
         (serializeGlobalsAux env).1) := by
  constructor
  · intro env m j hnd hmem h1 h2
    exact ⟨serializeGlobalsAux_plotly_viz hmem h1 h2,
           serializeGlobalsAux_plotly_not_var hnd hmem⟩
  · intro env m png hmem h1 h2
    exact serializeGlobalsAux_mem_of hmem h1 h2 rfl rfl (Or.inl rfl)

/-- C5 witness at a one-entry environment holding a plotly figure. -/
theorem C5_witness :
    (([("p", PyVal.plotlyFig (some "SPEC"))].map Prod.fst).Nodup
     ∧ ("p", PyVal.plotlyFig (some "SPEC")) ∈
         [("p", PyVal.plotlyFig (some "SPEC"))]
     ∧ strStartsWith "p" "_" = false
     ∧ server_excluded.contains "p" = false)
    ∧ (Visualization.plotly "SPEC" ∈
         (serializeGlobalsAux [("p", PyVal.plotlyFig (some "SPEC"))]).2
       ∧ ∀ sv, ("p", sv) ∉
           (serializeGlobalsAux [("p", PyVal.plotlyFig (some "SPEC"))]).1) :=
  ⟨⟨by decide, by decide, by decide, by decide⟩,
   C5_theorem.1 [("p", PyVal.plotlyFig (some "SPEC"))] "p" "SPEC"
     (by decide) (by decide) (by decide) (by decide)⟩

/-- C6: a session execution whose request to the agent times out restarts
the sandbox, is reported as a timed-out failure, and leaves the session
with a freshly initialized agent; the next execution under the same
session id observes a fresh environment — its serialized variables map is
empty, so no binding made before the timeout is observed. -/
theorem C6_theorem (s : SessionState) (stmts1 stmts2 : List Stmt)
    (data : Option (List String × List (List PyScalar))) (t e1 e2 : Nat) :
    (stateful_execute true
        (stateful_execute true s stmts1 data t false e1).2
        stmts2 none t true e2).1.success = false
    ∧ (stateful_execute true
        (stateful_execute true s stmts1 data t false e1).2
        stmts2 none t true e2).1.error =
        some ("Execution timed out after " ++ toString t ++ " seconds")
    ∧ (stateful_execute true
        (stateful_execute true s stmts1 data t false e1).2
        stmts2 none t true e2).2 = ⟨some initialAgentState⟩
    ∧ (stateful_execute true
        (stateful_execute true
          (stateful_execute true s stmts1 data t false e1).2
          stmts2 none t true e2).2
        [] none t false 0).1.result = some [] := by
  refine ⟨by rfl, by rfl, by rfl, ?_⟩
  show (stateful_execute true ⟨some initialAgentState⟩ [] none t false 0).1.result
      = some []
  rfl

/-- C7: serializing a DataFrame yields a table entry with its shape
(rows, columns), its column names and exactly the first 10 rows as
preview (all rows when there are fewer than 10); serializing a dense
numeric ndarray yields an array entry with its shape and at most the
first 20 elements of its flat buffer, whatever the actual size; the
one-shot wrapper serializer agrees on both cases. -/
theorem C7_theorem (cols : List String) (rows : List (List PyScalar))
    (shape : List Nat) (flat : List Int) :
    safe_serialize (.dataframe cols rows) =
      .table (rows.length, cols.length) cols (rows.take 10)
    ∧ (rows.take 10).length = min 10 rows.length
    ∧ (rows.length < 10 → rows.take 10 = rows)
    ∧ safe_serialize (.ndarray shape flat) = .arrayVal shape (flat.take 20)
    ∧ (flat.take 20).length ≤ 20
    ∧ wrapper_safe_serialize (.dataframe cols rows) =
        safe_serialize (.dataframe cols rows)
    ∧ wrapper_safe_serialize (.ndarray shape flat) =
        safe_serialize (.ndarray shape flat) := by
  refine ⟨rfl, List.length_take .., fun h => List.take_of_length_le h.le,
    rfl, ?_, rfl, rfl⟩
  rw [List.length_take]
  exact min_le_left ..

/-- C7 witness at a two-row table. -/
theorem C7_witness :
    ([[PyScalar.int 1], [PyScalar.int 2]] : List (List PyScalar)).length < 10
    ∧ [[PyScalar.int 1], [PyScalar.int 2]].take 10 =
        [[PyScalar.int 1], [PyScalar.int 2]] :=
  ⟨by decide,
   ( C7_theorem ["a"] [[PyScalar.int 1], [PyScalar.int 2]] [] []).2.2.1
     (by decide)⟩

/-- C8 counterexample: in the one-shot wrapper collection loop a
user-defined function object is serialized and appears in the variables
map as an opaque string, contrary to the claim that function objects are
never serialized; only the session agent loop excludes functions. -/
theorem C8_counterexample :
    (wrapperCollect [("foo", .funcObj "foo")]).1 =
      [("foo", .opaqueVal "<function foo>")] := by
  decide

/-- C8, amended: the session agent never serializes modules, functions or
underscore-prefixed names — every entry of its variables map originates
from a binding that is none of those; the one-shot wrapper never
serializes modules or underscore-prefixed names, but it does serialize
function objects. -/
theorem C8_theorem :
    (∀ (env : List (String × PyVal)) (m : String) (sv : SerializedValue),
       (m, sv) ∈ (serializeGlobalsAux env).1 →
       strStartsWith m "_" = false
       ∧ ∃ v, (m, v) ∈ env ∧ isModule v = false ∧ isFunction v = false)
    ∧ (∀ (env : List (String × PyVal)) (m : String) (sv : SerializedValue),
       (m, sv) ∈ (wrapperCollect env).1 →
       strStartsWith m "_" = false ∧ ∃ v, (m, v) ∈ env ∧ isModule v = false) := by
  constructor
  · intro env m sv h
    obtain ⟨hu, _, v, hv, hm, hf, _⟩ := serializeGlobalsAux_mem_source h
    exact ⟨hu, v, hv, hm, hf⟩
  · intro env m sv h
    obtain ⟨hu, _, v, hv, hm⟩ := wrapperCollect_mem_source h
    exact ⟨hu, v, hv, hm⟩

/-- C8 witness at a one-entry environment holding a scalar. -/
theorem C8_witness :
    ("x", SerializedValue.passthrough (.scalar (.int 1))) ∈
      (serializeGlobalsAux [("x", PyVal.scalar (.int 1))]).1
    ∧ (strStartsWith "x" "_" = false
       ∧ ∃ v, ("x", v) ∈ [("x", PyVal.scalar (.int 1))]
           ∧ isModule v = false ∧ isFunction v = false) :=
  ⟨by decide,
   C8_theorem.1 [("x", PyVal.scalar (.int 1))] "x"
     (SerializedValue.passthrough (.scalar (.int 1))) (by decide)⟩

/-- C9 counterexample: when the executor call raises, the finalized
record's status is failed (or timeout) — inside the claimed status set —
yet execution_time_ms is absent, contradicting the claimed iff. -/
theorem C9_counterexample :
    (execute_endpoint .processE "x = 1" false false 30
        (.raisesOther "disk full" [])).record =
      some ⟨"x = 1", "failed", none, none, some "disk full", none, none⟩
    ∧ (execute_endpoint .processE "y = 2" false false 30
        (.raisesTimeout [])).record =
      some ⟨"y = 2", "timeout", none, none,
        some "Execution timed out after 30 seconds", none, none⟩ := by
  exact ⟨by decide, by decide⟩

/-- C9, amended: every finalized record has status success, failed or
timeout, and execution_time_ms is present iff the executor call returned
a result dict carrying it — which every dict the modelled executors
return does; when the executor raises, the status is still failed or
timeout but the field is absent. -/
theorem C9_theorem :
    (∀ (ex : SelectedExecutor) (code : String) (fr ff : Bool) (t : Nat)
       (b : ExecBehavior) (row : ExecutionRecordRow),
       (execute_endpoint ex code fr ff t b).record = some row →
       (row.status = "success" ∨ row.status = "failed" ∨ row.status = "timeout")
       ∧ (row.execution_time_ms.isSome = true ↔
            ∃ d effs, b = .returnsDict d effs ∧ d.execution_time_ms.isSome = true))
    ∧ (∀ (code : String) (hostOk : Bool) (outcome : SandboxOutcome)
         (t e : Nat) (effs : List ExecEffect) (d : ExecDict),
         processExecutor_execute code hostOk outcome t e = (effs, .ok d) →
         d.execution_time_ms.isSome = true)
    ∧ (∀ (code : String) (clientOk hostOk : Bool) (outcome : SandboxOutcome)
         (t e : Nat) (effs : List ExecEffect) (d : ExecDict),
         dockerExecutor_execute clientOk code hostOk outcome t e =
           (effs, .ok d) →
         d.execution_time_ms.isSome = true) := by
  refine ⟨?_, ?_, ?_⟩
  · intro ex code fr ff t b row h
    simp only [execute_endpoint] at h
    rcases hv : executor_validate ex (sanitize_code code) with ⟨ok, em⟩
    rw [hv] at h
    cases ok
    · simp at h
    · by_cases hf : (fr && !ff) = true
      · rw [if_pos hf] at h
        simp at h
      · rw [if_neg hf] at h
        cases b with
        | returnsDict d effs =>
          rw [← Option.some.inj h]
          constructor
          · cases d.success <;> simp
          · constructor
            · intro hs
              exact ⟨d, effs, rfl, hs⟩
            · rintro ⟨d2, effs2, heq, hs⟩
              obtain ⟨hd, -⟩ := ExecBehavior.returnsDict.inj heq
              rw [hd]
              exact hs
        | raisesTimeout effs =>
          rw [← Option.some.inj h]
          refine ⟨Or.inr (Or.inr rfl), ?_, ?_⟩
          · intro hs
            exact absurd hs (by simp)
          · rintro ⟨d2, effs2, heq, hs⟩
            exact ExecBehavior.noConfusion heq
        | raisesOther msg effs =>
          rw [← Option.some.inj h]
          refine ⟨Or.inr (Or.inl rfl), ?_, ?_⟩
          · intro hs
            exact absurd hs (by simp)
          · rintro ⟨d2, effs2, heq, hs⟩
            exact ExecBehavior.noConfusion heq
  · intro code hostOk outcome t e effs d h
    cases hostOk
    · simp [processExecutor_execute] at h
    · cases outcome with
      | hangsPastTimeout =>
        simp [processExecutor_execute] at h
        rw [← h.2]
        rfl
      | completes ec out err rf =>
        by_cases hec : ec = 0
        · cases rf with
          | none =>
            simp [processExecutor_execute, hec] at h
            rw [← h.2]
            rfl
          | some pair =>
            simp [processExecutor_execute, hec] at h
            rw [← h.2]
            rfl
        · simp [processExecutor_execute, hec] at h
          rw [← h.2]
          rfl
  · intro code clientOk hostOk outcome t e effs d h
    cases clientOk
    · simp [dockerExecutor_execute] at h
      rw [← h.2]
      rfl
    · cases hostOk
      · simp [dockerExecutor_execute] at h
      · cases outcome with
        | hangsPastTimeout =>
          simp [dockerExecutor_execute] at h
          rw [← h.2]
          rfl
        | completes ec out err rf =>
          by_cases hec : ec = 0
          · cases rf with
            | none =>
              simp [dockerExecutor_execute, hec] at h
              rw [← h.2]
              rfl
            | some pair =>
              simp [dockerExecutor_execute, hec] at h
              rw [← h.2]
              rfl
          · simp [dockerExecutor_execute, hec] at h
            rw [← h.2]
            rfl

/-- C9 witness at a successful concrete execution. -/
theorem C9_witness :
    (execute_endpoint .processE "a = 1" false false 30
        (.returnsDict ⟨true, none, some "", some "", some [], some 12, none⟩
          [])).record =
      some ⟨"a = 1", "success", some [], some "", some "", none, some 12⟩
    ∧ (("success" = "success" ∨ "success" = "failed" ∨ "success" = "timeout")
       ∧ ((some (12 : Nat)).isSome = true ↔
            ∃ d effs,
              ExecBehavior.returnsDict
                  ⟨true, none, some "", some "", some [], some 12, none⟩ [] =
                .returnsDict d effs ∧ d.execution_time_ms.isSome = true)) :=
  ⟨by decide,
   C9_theorem.1 .processE "a = 1" false false 30
     (.returnsDict ⟨true, none, some "", some "", some [], some 12, none⟩ [])
     ⟨"a = 1", "success", some [], some "", some "", none, some 12⟩
     (by decide)⟩

/-- C10: session execution is not atomic with respect to the persistent
environment — a binding made by a statement that ran before a raised
exception persists in the agent globals, the failing response reports
success false with the traceback written to the captured stderr, and a
subsequent execution in the same session sees the binding in its
serialized variables map. -/
theorem C10_theorem (st : AgentState) (n : String) (s : PyScalar)
    (msg : String) (rest : List Stmt)
    (h1 : strStartsWith n "_" = false)
    (h2 : server_excluded.contains n = false) :
    (agent_execute st
        (Stmt.assign n (.scalar s) :: Stmt.raiseExn msg :: rest)
        none).1.success = false
    ∧ (agent_execute st
        (Stmt.assign n (.scalar s) :: Stmt.raiseExn msg :: rest)
        none).1.stderr = tracebackOf msg
    ∧ envGet (agent_execute st
        (Stmt.assign n (.scalar s) :: Stmt.raiseExn msg :: rest)
        none).2.globalsEnv n = some (.scalar s)
    ∧ (n, SerializedValue.passthrough (.scalar s)) ∈
        (agent_execute (agent_execute st
          (Stmt.assign n (.scalar s) :: Stmt.raiseExn msg :: rest)
          none).2 [] none).1.variablesMap := by
  refine ⟨rfl, ?_, ?_, ?_⟩
  · show "" ++ tracebackOf msg = tracebackOf msg
    simp
  · exact envGet_envSet_self ..
  · exact serializeGlobalsAux_mem_of (envSet_mem_self ..) h1 h2 rfl rfl
      (Or.inl rfl)

/-- C10 witness at a concrete two-statement program. -/
theorem C10_witness :
    (strStartsWith "a" "_" = false ∧ server_excluded.contains "a" = false)
    ∧ ((agent_execute initialAgentState
          [Stmt.assign "a" (.scalar (.int 5)), Stmt.raiseExn "boom"]
          none).1.success = false
       ∧ (agent_execute initialAgentState
          [Stmt.assign "a" (.scalar (.int 5)), Stmt.raiseExn "boom"]
          none).1.stderr = tracebackOf "boom"
       ∧ envGet (agent_execute initialAgentState
          [Stmt.assign "a" (.scalar (.int 5)), Stmt.raiseExn "boom"]
          none).2.globalsEnv "a" = some (.scalar (.int 5))
       ∧ ("a", SerializedValue.passthrough (.scalar (.int 5))) ∈
           (agent_execute (agent_execute initialAgentState
             [Stmt.assign "a" (.scalar (.int 5)), Stmt.raiseExn "boom"]
             none).2 [] none).1.variablesMap) :=
  ⟨⟨by decide, by decide⟩,
   C10_theorem initialAgentState "a" (.int 5) "boom" [] (by decide) (by decide)⟩

end Beagle
